import Mathlib

/-!
# ClawLobstars planning and action modules: a shallow embedding

This file embeds the planning module (`src/planning/cls_planning.c`) and the
action-executor module (`src/action/cls_action.c`) of the ClawLobstars agent
framework, together with the data model of `src/cls_planning.h`,
`src/include/cls_action.h` and `src/include/cls_framework.h`, and proves the
behavioural properties claimed of them.

Modelling conventions:
* C `float` fields are modelled as exact rationals (`ℚ`); the C literals
  `0.1f`, `0.8f`, `1.0f` become `1/10`, `4/5`, `1`.
* Unsigned machine integers become `Nat` (no claim exercises wraparound).
* Monotonic-clock reads (`clock_gettime`) become explicit `Nat` timestamp
  parameters.
* Out-parameter/pointer returns become structured return values; functions
  that mutate their arguments return the updated values alongside the status.
* Action-handler callbacks (`cls_action_fn`) become Lean functions
  `Nat → Nat → Nat → cls_status` ((action_id, params, params_len) → status);
  the opaque `void *params` pointer is modelled as a `Nat` token.
-/

namespace CLS

/-- Status codes (`cls_status_t` in `cls_framework.h`). -/
inductive cls_status where
  | ok
  | err_nomem
  | err_invalid
  | err_timeout
  | err_overflow
  | err_not_found
  | err_busy
  | err_security
  | err_io
  | err_state
  | err_internal
  deriving DecidableEq, Repr

/-- Plan / task status (`cls_plan_status_t` in `cls_planning.h`). -/
inductive cls_plan_status where
  | pending
  | active
  | complete
  | failed
  | cancelled
  deriving DecidableEq, Repr

/-- `CLS_CLAMP(x, lo, hi) = CLS_MIN(CLS_MAX(x, lo), hi)` from `cls_framework.h`. -/
def CLS_CLAMP (x lo hi : Nat) : Nat := min (max x lo) hi

/-- A decision produced by the cognitive module (`cls_decision_t`).
Priority is on a 0–100 scale (a `uint32_t` in C). -/
structure cls_decision where
  action_id : Nat
  confidence : ℚ
  priority : Nat
  params : Nat
  params_len : Nat
  deriving DecidableEq, Repr

/-- A single task within a plan (`cls_task_t`). `depends_on`/`dep_count`
become one list; `priority` is the numeric value of the `cls_priority_t`
enum (0–3). -/
structure cls_task where
  task_id : Nat
  action_id : Nat
  priority : Nat
  status : cls_plan_status
  cost_estimate : ℚ
  reward_estimate : ℚ
  depends_on : List Nat
  params : Nat
  params_len : Nat
  deadline_us : Nat
  started_at : Nat
  completed_at : Nat
  deriving DecidableEq, Repr

/-- An execution plan (`cls_plan_t`); `task_count` is `tasks.length`. -/
structure cls_plan where
  plan_id : Nat
  status : cls_plan_status
  tasks : List cls_task
  max_tasks : Nat
  total_cost : ℚ
  total_reward : ℚ
  success_probability : ℚ
  created_at : Nat
  deriving DecidableEq, Repr

/-- The planner context (`struct cls_planner`); goal fields are omitted
(no claim concerns goals). `plan_count` is `plans.length`. -/
structure cls_planner where
  plans : List cls_plan
  max_plans : Nat
  plans_generated : Nat
  deriving DecidableEq, Repr

/-! ## Plan generation (`cls_planner_generate`) -/

/-- State threaded through the decision-to-task conversion loop of
`cls_planner_generate` (lines 99–117 of `cls_planning.c`). -/
structure GenState where
  tasks : List cls_task
  total_cost : ℚ
  total_reward : ℚ
  deriving DecidableEq, Repr

/-- One iteration of the conversion loop: skip a decision with
`confidence < 0.1f`, otherwise build a task from it and accumulate the
per-task cost/reward into the running totals. -/
def gen_step (s : GenState) (d : cls_decision) : GenState :=
  if d.confidence < 1/10 then s
  else
    let task : cls_task :=
      { task_id := s.tasks.length + 1
        action_id := d.action_id
        priority := CLS_CLAMP (d.priority / 25) 0 3
        status := .pending
        cost_estimate := 1 - d.confidence
        reward_estimate := d.confidence
        depends_on := []
        params := d.params
        params_len := d.params_len
        deadline_us := 0
        started_at := 0
        completed_at := 0 }
    { tasks := s.tasks ++ [task]
      total_cost := s.total_cost + (1 - d.confidence)
      total_reward := s.total_reward + d.confidence }

/-- `cls_planner_generate` (lines 80–130 of `cls_planning.c`). Null-pointer
arguments are not representable; the `decision_count == 0` and table-full
checks are modelled. On success the new plan is appended to `plans`. -/
def cls_planner_generate (planner : cls_planner) (decisions : List cls_decision)
    (now : Nat) : cls_status × cls_planner :=
  if decisions.length = 0 then (.err_invalid, planner)
  else if planner.plans.length ≥ planner.max_plans then (.err_overflow, planner)
  else
    let s := decisions.foldl gen_step ⟨[], 0, 0⟩
    let plan : cls_plan :=
      { plan_id := planner.plans_generated + 1
        status := .active
        tasks := s.tasks
        max_tasks := decisions.length * 2
        total_cost := s.total_cost
        total_reward := s.total_reward
        success_probability :=
          if s.tasks.length > 0 then s.total_reward / (s.tasks.length : ℚ) else 0
        created_at := now }
    (.ok, { planner with
            plans := planner.plans ++ [plan]
            plans_generated := planner.plans_generated + 1 })

/-! ## Next-task selection (`cls_plan_next_task`) -/

/-- The inner dependency probe of `cls_plan_next_task` (lines 156–163):
does some task of the plan carry this id with status Complete? -/
def dep_complete (tasks : List cls_task) (dep_id : Nat) : Bool :=
  tasks.any fun t => t.task_id == dep_id && t.status == .complete

/-- All dependency ids of `t` name Complete tasks of the plan
(lines 154–165): a dependency id naming no task fails the check. -/
def deps_met (tasks : List cls_task) (t : cls_task) : Bool :=
  t.depends_on.all (dep_complete tasks)

/-- A task is eligible for `cls_plan_next_task`: Pending with all
dependencies met. -/
def is_candidate (tasks : List cls_task) (t : cls_task) : Bool :=
  t.status == .pending && deps_met tasks t

/-- The `best`-tracking step of the selection loop (lines 170–172):
replace the current best only on strictly higher priority. -/
def best_step (best : Option cls_task) (t : cls_task) : Option cls_task :=
  match best with
  | none => some t
  | some b => if t.priority > b.priority then some t else some b

/-- `cls_plan_next_task` (lines 144–178): scan tasks in array order,
skip non-candidates, keep the first task of maximal priority; NotFound
when no candidate exists. -/
def cls_plan_next_task (plan : cls_plan) : cls_status × Option cls_task :=
  match plan.tasks.foldl
      (fun best t => if is_candidate plan.tasks t then best_step best t else best)
      none with
  | none => (.err_not_found, none)
  | some t => (.ok, some t)

/-! ## Task completion (`cls_plan_complete_task`) -/

/-- The in-place task update of `cls_plan_complete_task` (lines 185–186):
status Complete/Failed according to `success`, `completed_at` stamped. -/
def completed_update (t : cls_task) (success : Bool) (now : Nat) : cls_task :=
  { t with status := if success then .complete else .failed
           completed_at := now }

/-- The find-and-update scan of `cls_plan_complete_task` (lines 183–186):
update the first task carrying `task_id`; `none` when no task matches. -/
def set_first_task (tasks : List cls_task) (task_id : Nat) (success : Bool)
    (now : Nat) : Option (List cls_task) :=
  match tasks with
  | [] => none
  | t :: rest =>
    if t.task_id = task_id then some (completed_update t success now :: rest)
    else (set_first_task rest task_id success now).map (t :: ·)

/-- A task no longer counts against plan completion (the rescan of
lines 191–199 treats Pending and Active as not done). -/
def task_done (t : cls_task) : Bool :=
  !(t.status == .pending) && !(t.status == .active)

/-- The plan-status aggregation of lines 188–203: when every task is done
the plan becomes Failed (some task Failed) or Complete, otherwise the
status is left as it was. -/
def plan_agg_status (tasks : List cls_task) (old : cls_plan_status) :
    cls_plan_status :=
  if tasks.all task_done then
    (if tasks.any (fun t => t.status == .failed) then .failed else .complete)
  else old

/-- `cls_plan_complete_task` (lines 180–208): NotFound when no task has the
id; otherwise mark the first matching task and rescan all tasks, setting the
plan status by `plan_agg_status`. -/
def cls_plan_complete_task (plan : cls_plan) (task_id : Nat) (success : Bool)
    (now : Nat) : cls_status × cls_plan :=
  match set_first_task plan.tasks task_id success now with
  | none => (.err_not_found, plan)
  | some tasks =>
    (.ok, { plan with
            tasks := tasks
            status := plan_agg_status tasks plan.status })

/-! ## Replanning (`cls_planner_replan`) -/

/-- A task qualifies for replanning (lines 238–239): status Pending or
Failed. -/
def replan_qualifies (t : cls_task) : Bool :=
  t.status == .pending || t.status == .failed

/-- The fallback decision `cls_planner_replan` synthesizes from a collected
task (lines 240–244): `confidence = reward_estimate * 0.8f`, the task's
original action_id, priority and params. -/
def fallback_decision (t : cls_task) : cls_decision :=
  { action_id := t.action_id
    confidence := t.reward_estimate * (4/5)
    priority := t.priority
    params := t.params
    params_len := t.params_len }

/-- The collection loop of `cls_planner_replan` (lines 237–247): walk the
tasks in order, synthesizing one fallback decision per Pending/Failed task,
stopping once the 64-entry `fallback_decisions` buffer is full. `remaining`
is the running count. -/
def replan_collect (tasks : List cls_task) (remaining : Nat) : List cls_decision :=
  match tasks with
  | [] => []
  | t :: rest =>
    if remaining ≥ 64 then []
    else if replan_qualifies t then
      fallback_decision t :: replan_collect rest (remaining + 1)
    else replan_collect rest remaining

/-- `cls_planner_replan` (lines 228–253): NotFound (nothing changed) when no
task qualifies; otherwise mark the old plan Cancelled and hand the
synthesized batch to `cls_planner_generate`. The returned triple carries the
generator's status, the updated planner, and the (possibly cancelled) old
plan value. -/
def cls_planner_replan (planner : cls_planner) (failed_plan : cls_plan)
    (now : Nat) : cls_status × cls_planner × cls_plan :=
  let fallback := replan_collect failed_plan.tasks 0
  if fallback.length = 0 then (.err_not_found, planner, failed_plan)
  else
    let cancelled := { failed_plan with status := cls_plan_status.cancelled }
    let r := cls_planner_generate planner fallback now
    (r.1, r.2, cancelled)

/-! ## Action executor (`cls_action.c`) -/

/-- Action execution status (`cls_action_status_t` in `cls_action.h`). -/
inductive cls_action_status where
  | idle
  | running
  | success
  | failed
  | rolledback
  | timeout
  deriving DecidableEq, Repr

/-- An action handler registration (`cls_action_handler_t`); `rollback_fn`
is `none` when the C field is NULL. The `name` string is omitted. -/
structure cls_action_handler where
  action_id : Nat
  execute_fn : Nat → Nat → Nat → cls_status
  rollback_fn : Option (Nat → Nat → Nat → cls_status)
  timeout_ms : Nat
  min_priority : Nat

/-- An execution record (`cls_action_record_t`). -/
structure cls_action_record where
  exec_id : Nat
  action_id : Nat
  status : cls_action_status
  started_at : Nat
  completed_at : Nat
  duration_us : Nat
  result_code : cls_status
  rolled_back : Bool
  deriving DecidableEq, Repr

/-- The all-zero record a freshly calloc'd history slot holds. -/
def zero_record : cls_action_record :=
  { exec_id := 0, action_id := 0, status := .idle, started_at := 0
    completed_at := 0, duration_us := 0, result_code := .ok, rolled_back := false }

/-- The executor context (`struct cls_action_exec`). `history` is the
fixed `max_history`-slot array (length `max_history`); `handler_count` is
`handlers.length`. -/
structure cls_action_exec where
  handlers : List cls_action_handler
  max_handlers : Nat
  history : List cls_action_record
  history_count : Nat
  max_history : Nat
  next_exec_id : Nat
  total_executed : Nat
  total_success : Nat
  total_failed : Nat
  total_rollbacks : Nat

/-- `cls_action_init` (lines 17–35 of `cls_action.c`): zeroed context with
calloc'd tables; fails (Invalid) when `max_handlers == 0`. -/
def cls_action_init (max_handlers max_history : Nat) :
    cls_status × Option cls_action_exec :=
  if max_handlers = 0 then (.err_invalid, none)
  else
    (.ok, some
      { handlers := []
        max_handlers := max_handlers
        history := List.replicate max_history zero_record
        history_count := 0
        max_history := max_history
        next_exec_id := 1
        total_executed := 0
        total_success := 0
        total_failed := 0
        total_rollbacks := 0 })

/-- `cls_action_register` (lines 37–50): Overflow when the handler table is
full, Invalid on a duplicate action_id, else append. -/
def cls_action_register (exec : cls_action_exec) (h : cls_action_handler) :
    cls_status × cls_action_exec :=
  if exec.handlers.length ≥ exec.max_handlers then (.err_overflow, exec)
  else if exec.handlers.any (fun g => g.action_id == h.action_id) then
    (.err_invalid, exec)
  else (.ok, { exec with handlers := exec.handlers ++ [h] })

/-- `find_handler` (lines 65–71): first handler registered for the id. -/
def find_handler (handlers : List cls_action_handler) (action_id : Nat) :
    Option cls_action_handler :=
  handlers.find? fun h => h.action_id == action_id

/-- `record_action` (lines 73–77): write the record at slot
`history_count % max_history`; advance `history_count` only while below
capacity. -/
def record_action (exec : cls_action_exec) (rec_ : cls_action_record) :
    cls_action_exec :=
  let idx := exec.history_count % exec.max_history
  let exec := { exec with history := exec.history.set idx rec_ }
  if exec.history_count < exec.max_history then
    { exec with history_count := exec.history_count + 1 }
  else exec

/-- The history scan shared by `cls_action_rollback` and
`cls_action_get_record` (`for i < history_count && i < max_history`):
first record carrying `exec_id` within the bound, with its slot index. -/
def find_record (history : List cls_action_record) (bound : Nat)
    (exec_id : Nat) : Option (Nat × cls_action_record) :=
  match history, bound with
  | [], _ => none
  | _, 0 => none
  | r :: rest, b + 1 =>
    if r.exec_id = exec_id then some (0, r)
    else (find_record rest b exec_id).map fun p => (p.1 + 1, p.2)

/-- `cls_action_execute` (lines 79–114): NotFound without any state change
when no handler is registered; otherwise invoke the handler once, build the
record (Success on OK, Failed otherwise), bump the counters, store the
record through `record_action`, and return the handler's own result. The
two clock reads become the parameters `t_start`, `t_end`; the out-parameter
`record` is the third component (`none` when the C code leaves it
untouched). -/
def cls_action_execute (exec : cls_action_exec) (action_id params params_len : Nat)
    (t_start t_end : Nat) :
    cls_status × cls_action_exec × Option cls_action_record :=
  match find_handler exec.handlers action_id with
  | none => (.err_not_found, exec, none)
  | some h =>
    let result := h.execute_fn action_id params params_len
    let rec_ : cls_action_record :=
      { exec_id := exec.next_exec_id
        action_id := action_id
        status := if result = .ok then .success else .failed
        started_at := t_start
        completed_at := t_end
        duration_us := t_end - t_start
        result_code := result
        rolled_back := false }
    let exec :=
      { exec with
        next_exec_id := exec.next_exec_id + 1
        total_success := if result = .ok then exec.total_success + 1
                         else exec.total_success
        total_failed := if result = .ok then exec.total_failed
                        else exec.total_failed + 1
        total_executed := exec.total_executed + 1 }
    (result, record_action exec rec_, some rec_)

/-- `cls_action_execute_task` (lines 116–130): stamp the task Active/started,
delegate to `cls_action_execute`, then stamp completion and set the task
Complete/Failed from the returned status. The four clock reads become
`t_task_start t_start t_end t_task_end`. -/
def cls_action_execute_task (exec : cls_action_exec) (task : cls_task)
    (t_task_start t_start t_end t_task_end : Nat) :
    cls_status × cls_action_exec × cls_task × Option cls_action_record :=
  let task := { task with started_at := t_task_start, status := cls_plan_status.active }
  let r := cls_action_execute exec task.action_id task.params task.params_len
             t_start t_end
  let task := { task with
                completed_at := t_task_end
                status := if r.1 = .ok then cls_plan_status.complete
                          else cls_plan_status.failed }
  (r.1, r.2.1, task, r.2.2)

/-- `cls_action_rollback` (lines 132–159): NotFound when no history record
carries the exec_id; InvalidState when already rolled back; Invalid when no
handler (or no rollback function) exists for the record's action; else run
the rollback function, and only on its OK flip the record and count it. -/
def cls_action_rollback (exec : cls_action_exec) (exec_id : Nat) :
    cls_status × cls_action_exec :=
  match find_record exec.history (min exec.history_count exec.max_history)
      exec_id with
  | none => (.err_not_found, exec)
  | some (i, r) =>
    if r.rolled_back then (.err_state, exec)
    else
      match find_handler exec.handlers r.action_id with
      | none => (.err_invalid, exec)
      | some h =>
        match h.rollback_fn with
        | none => (.err_invalid, exec)
        | some rb =>
          let result := rb r.action_id 0 0
          if result = .ok then
            (result,
             { exec with
               history := exec.history.set i
                 { r with rolled_back := true, status := .rolledback }
               total_rollbacks := exec.total_rollbacks + 1 })
          else (result, exec)

/-- `cls_action_get_record` (lines 161–171): first history record carrying
the exec_id within `min history_count max_history`, or NotFound. -/
def cls_action_get_record (exec : cls_action_exec) (exec_id : Nat) :
    cls_status × Option cls_action_record :=
  match find_record exec.history (min exec.history_count exec.max_history)
      exec_id with
  | none => (.err_not_found, none)
  | some (_, r) => (.ok, some r)

/-! ## Derived notions used by the specification statements -/

/-- The decisions that survive the `confidence < 0.1f` filter of
`cls_planner_generate`, in batch order. -/
def surviving (decisions : List cls_decision) : List cls_decision :=
  decisions.filter fun d => 1/10 ≤ d.confidence

/-- The task `cls_planner_generate` builds from a surviving decision when
`count` tasks have been created before it. -/
def task_of_decision (d : cls_decision) (count : Nat) : cls_task :=
  { task_id := count + 1
    action_id := d.action_id
    priority := CLS_CLAMP (d.priority / 25) 0 3
    status := .pending
    cost_estimate := 1 - d.confidence
    reward_estimate := d.confidence
    depends_on := []
    params := d.params
    params_len := d.params_len
    deadline_us := 0
    started_at := 0
    completed_at := 0 }

/-- The task list built from a decision list, numbering tasks from
`count + 1` on. -/
def mk_tasks : List cls_decision → Nat → List cls_task
  | [], _ => []
  | d :: ds, count => task_of_decision d count :: mk_tasks ds (count + 1)

/-! ### The decision-conversion fold of `cls_planner_generate` -/

theorem mk_tasks_length (ds : List cls_decision) :
    ∀ n, (mk_tasks ds n).length = ds.length := by
  induction ds with
  | nil => intro n; rfl
  | cons d ds ih => intro n; simp [mk_tasks, ih]

theorem mk_tasks_map {α : Type} (f : cls_task → α) (g : cls_decision → α)
    (hfg : ∀ d n, f (task_of_decision d n) = g d) (ds : List cls_decision) :
    ∀ n, (mk_tasks ds n).map f = ds.map g := by
  induction ds with
  | nil => intro n; rfl
  | cons d ds ih => intro n; simp [mk_tasks, hfg, ih]

theorem surviving_cons_skip {d : cls_decision} (ds : List cls_decision)
    (hd : d.confidence < 1/10) : surviving (d :: ds) = surviving ds := by
  unfold surviving
  rw [List.filter_cons]
  simp only [decide_eq_true_eq]
  rw [if_neg (not_le.mpr hd)]

theorem surviving_cons_keep {d : cls_decision} (ds : List cls_decision)
    (hd : ¬ d.confidence < 1/10) : surviving (d :: ds) = d :: surviving ds := by
  unfold surviving
  rw [List.filter_cons]
  simp only [decide_eq_true_eq]
  rw [if_pos (not_lt.mp hd)]

theorem gen_step_skip {d : cls_decision} (s : GenState)
    (hd : d.confidence < 1/10) : gen_step s d = s := by
  unfold gen_step
  rw [if_pos hd]

theorem gen_step_keep {d : cls_decision} (s : GenState)
    (hd : ¬ d.confidence < 1/10) :
    gen_step s d =
      { tasks := s.tasks ++ [task_of_decision d s.tasks.length]
        total_cost := s.total_cost + (1 - d.confidence)
        total_reward := s.total_reward + d.confidence } := by
  unfold gen_step task_of_decision
  rw [if_neg hd]

theorem gen_step_foldl_tasks (ds : List cls_decision) :
    ∀ s : GenState,
      (ds.foldl gen_step s).tasks = s.tasks ++ mk_tasks (surviving ds) s.tasks.length := by
  induction ds with
  | nil => intro s; simp [surviving, mk_tasks]
  | cons d ds ih =>
    intro s
    by_cases hd : d.confidence < 1/10
    · simp only [List.foldl_cons, gen_step_skip s hd, surviving_cons_skip ds hd, ih]
    · have hs := gen_step_keep s hd
      have hlen : (gen_step s d).tasks.length = s.tasks.length + 1 := by
        rw [hs]; simp
      simp only [List.foldl_cons, ih, hlen, surviving_cons_keep ds hd, mk_tasks]
      rw [hs]
      simp [List.append_assoc]

theorem gen_step_foldl_cost (ds : List cls_decision) :
    ∀ s : GenState,
      (ds.foldl gen_step s).total_cost
        = s.total_cost + ((surviving ds).map fun d => 1 - d.confidence).sum := by
  induction ds with
  | nil => intro s; simp [surviving]
  | cons d ds ih =>
    intro s
    by_cases hd : d.confidence < 1/10
    · simp only [List.foldl_cons, gen_step_skip s hd, surviving_cons_skip ds hd, ih]
    · simp only [List.foldl_cons, ih, gen_step_keep s hd, surviving_cons_keep ds hd,
        List.map_cons, List.sum_cons]
      ring

theorem gen_step_foldl_reward (ds : List cls_decision) :
    ∀ s : GenState,
      (ds.foldl gen_step s).total_reward
        = s.total_reward + ((surviving ds).map fun d => d.confidence).sum := by
  induction ds with
  | nil => intro s; simp [surviving]
  | cons d ds ih =>
    intro s
    by_cases hd : d.confidence < 1/10
    · simp only [List.foldl_cons, gen_step_skip s hd, surviving_cons_skip ds hd, ih]
    · simp only [List.foldl_cons, ih, gen_step_keep s hd, surviving_cons_keep ds hd,
        List.map_cons, List.sum_cons]
      ring

/-- The exact shape of a successful `cls_planner_generate` call: shared by
the proofs about generation. -/
theorem cls_planner_generate_eq (planner : cls_planner)
    (decisions : List cls_decision) (now : Nat) (hne : decisions ≠ [])
    (hroom : planner.plans.length < planner.max_plans) :
    cls_planner_generate planner decisions now =
      (.ok,
       { planner with
         plans := planner.plans ++
           [{ plan_id := planner.plans_generated + 1
              status := .active
              tasks := mk_tasks (surviving decisions) 0
              max_tasks := decisions.length * 2
              total_cost := ((surviving decisions).map fun d => 1 - d.confidence).sum
              total_reward := ((surviving decisions).map fun d => d.confidence).sum
              success_probability :=
                if 0 < (surviving decisions).length then
                  ((surviving decisions).map fun d => d.confidence).sum
                    / ((surviving decisions).length : ℚ)
                else 0
              created_at := now }]
         plans_generated := planner.plans_generated + 1 }) := by
  have hlen : ¬ decisions.length = 0 := by
    simpa [List.length_eq_zero] using hne
  have htasks := gen_step_foldl_tasks decisions (⟨[], 0, 0⟩ : GenState)
  have hcost := gen_step_foldl_cost decisions (⟨[], 0, 0⟩ : GenState)
  have hreward := gen_step_foldl_reward decisions (⟨[], 0, 0⟩ : GenState)
  simp only [List.nil_append, List.length_nil] at htasks hcost hreward
  simp only [cls_planner_generate, hlen, if_false, not_le.mpr hroom, if_neg,
    htasks, hcost, hreward, zero_add, mk_tasks_length, ite_not]

/-- C1. For every decision batch accepted by `generate` (non-empty batch,
plan table not full), the call succeeds and the produced plan holds exactly
one task per decision with confidence ≥ 0.1, in batch order, with
`cost_estimate = 1 − confidence` and `reward_estimate = confidence`;
`total_cost` and `total_reward` are the sums of the per-task estimates, and
`success_probability = total_reward / task_count`, with value 0 when no
decision survives the filter (still an OK outcome). -/
theorem generate_produces_filtered_tasks_and_sums (planner : cls_planner)
    (decisions : List cls_decision) (now : Nat) (hne : decisions ≠ [])
    (hroom : planner.plans.length < planner.max_plans) :
    ∃ plan : cls_plan,
      cls_planner_generate planner decisions now =
        (.ok, { planner with
                plans := planner.plans ++ [plan]
                plans_generated := planner.plans_generated + 1 })
      ∧ plan.tasks.map (fun t => (t.action_id, t.cost_estimate, t.reward_estimate))
          = (surviving decisions).map (fun d => (d.action_id, 1 - d.confidence, d.confidence))
      ∧ plan.total_cost = (plan.tasks.map cls_task.cost_estimate).sum
      ∧ plan.total_reward = (plan.tasks.map cls_task.reward_estimate).sum
      ∧ (plan.tasks ≠ [] →
          plan.success_probability = plan.total_reward / (plan.tasks.length : ℚ))
      ∧ (plan.tasks = [] → plan.success_probability = 0) := by
  refine ⟨_, cls_planner_generate_eq planner decisions now hne hroom, ?_, ?_, ?_, ?_, ?_⟩
  · exact mk_tasks_map _ _ (fun d n => rfl) (surviving decisions) 0
  · simp only [mk_tasks_map (cls_task.cost_estimate)
      (fun d => 1 - d.confidence) (fun d n => rfl) (surviving decisions) 0]
  · simp only [mk_tasks_map (cls_task.reward_estimate)
      (fun d => d.confidence) (fun d n => rfl) (surviving decisions) 0]
  · intro hne'
    have hpos : 0 < (surviving decisions).length := by
      rw [← mk_tasks_length (surviving decisions) 0]
      exact List.length_pos.mpr hne'
    simp only [if_pos hpos, mk_tasks_length]
  · intro hnil
    have hnil' : mk_tasks (surviving decisions) 0 = [] := hnil
    have hzero : (surviving decisions).length = 0 := by
      rw [← mk_tasks_length (surviving decisions) 0, hnil']
      rfl
    simp only [hzero, lt_irrefl, if_false]

/-- Witness for C1: a three-decision batch (confidences 0.9, 0.05, 0.5)
against an empty planner with room for four plans. -/
theorem generate_produces_filtered_tasks_and_sums_witness :
    (([⟨10, 9/10, 80, 0, 0⟩, ⟨20, 1/20, 60, 0, 0⟩, ⟨30, 1/2, 40, 0, 0⟩]
        : List cls_decision) ≠ [])
    ∧ ((⟨[], 4, 0⟩ : cls_planner).plans.length < (⟨[], 4, 0⟩ : cls_planner).max_plans)
    ∧ (∃ plan : cls_plan,
        cls_planner_generate ⟨[], 4, 0⟩
            [⟨10, 9/10, 80, 0, 0⟩, ⟨20, 1/20, 60, 0, 0⟩, ⟨30, 1/2, 40, 0, 0⟩] 7 =
          (.ok, { (⟨[], 4, 0⟩ : cls_planner) with
                  plans := (⟨[], 4, 0⟩ : cls_planner).plans ++ [plan]
                  plans_generated := (⟨[], 4, 0⟩ : cls_planner).plans_generated + 1 })
        ∧ plan.tasks.map (fun t => (t.action_id, t.cost_estimate, t.reward_estimate))
            = (surviving [⟨10, 9/10, 80, 0, 0⟩, ⟨20, 1/20, 60, 0, 0⟩, ⟨30, 1/2, 40, 0, 0⟩]).map
                (fun d => (d.action_id, 1 - d.confidence, d.confidence))
        ∧ plan.total_cost = (plan.tasks.map cls_task.cost_estimate).sum
        ∧ plan.total_reward = (plan.tasks.map cls_task.reward_estimate).sum
        ∧ (plan.tasks ≠ [] →
            plan.success_probability = plan.total_reward / (plan.tasks.length : ℚ))
        ∧ (plan.tasks = [] → plan.success_probability = 0)) :=
  ⟨by decide, by decide,
   generate_produces_filtered_tasks_and_sums ⟨[], 4, 0⟩
     [⟨10, 9/10, 80, 0, 0⟩, ⟨20, 1/20, 60, 0, 0⟩, ⟨30, 1/2, 40, 0, 0⟩] 7
     (by decide) (by decide)⟩

/-- Modelled from the spec's words for C7: `clamp(round(decision.priority/25),
0, 3)` with `round` to the nearest integer; for naturals
`round(p/25) = ⌊p/25 + 1/2⌋ = (2p + 25) / 50` (no tie can occur since 25 is
odd). The code instead truncates (`uint32_t` division). -/
def claim_round_priority (p : Nat) : Nat := CLS_CLAMP ((2 * p + 25) / 50) 0 3

/-- Counterexample to C7: a decision with priority 40 and confidence 0.5.
`generate` gives the task priority `40 / 25 = 1` (truncating division), but
the claimed mapping rounds `40/25 = 1.6` to 2. -/
theorem generate_priority_rounding_counterexample :
    ((cls_planner_generate ⟨[], 4, 0⟩ [⟨1, 1/2, 40, 0, 0⟩] 0).2.plans.map
        fun p => p.tasks.map cls_task.priority) = [[1]]
    ∧ claim_round_priority 40 = 2
    ∧ ((cls_planner_generate ⟨[], 4, 0⟩ [⟨1, 1/2, 40, 0, 0⟩] 0).2.plans.map
        fun p => p.tasks.map cls_task.priority) ≠ [[claim_round_priority 40]] := by
  refine ⟨?_, by decide, ?_⟩
  · norm_num [cls_planner_generate, gen_step, CLS_CLAMP]
  · norm_num [cls_planner_generate, gen_step, CLS_CLAMP, claim_round_priority]

/-- C7 as amended: for every decision accepted by `generate`, the created
task's priority equals `clamp(decision.priority / 25, 0, 3)` where `/` is
truncating integer division (the C `uint32_t` quotient), not rounding to
the nearest integer. -/
theorem generate_priority_truncates (planner : cls_planner)
    (decisions : List cls_decision) (now : Nat) (hne : decisions ≠ [])
    (hroom : planner.plans.length < planner.max_plans) :
    ∃ plan : cls_plan,
      cls_planner_generate planner decisions now =
        (.ok, { planner with
                plans := planner.plans ++ [plan]
                plans_generated := planner.plans_generated + 1 })
      ∧ plan.tasks.map cls_task.priority
          = (surviving decisions).map (fun d => CLS_CLAMP (d.priority / 25) 0 3) := by
  refine ⟨_, cls_planner_generate_eq planner decisions now hne hroom, ?_⟩
  exact mk_tasks_map _ _ (fun d n => rfl) (surviving decisions) 0

/-- Witness for the amended C7: decisions with priorities 80, 40, 99
produce task priorities 3, 1, 3. -/
theorem generate_priority_truncates_witness :
    (([⟨1, 1/2, 80, 0, 0⟩, ⟨2, 1/2, 40, 0, 0⟩, ⟨3, 1/2, 99, 0, 0⟩]
        : List cls_decision) ≠ [])
    ∧ ((⟨[], 4, 0⟩ : cls_planner).plans.length < (⟨[], 4, 0⟩ : cls_planner).max_plans)
    ∧ (∃ plan : cls_plan,
        cls_planner_generate ⟨[], 4, 0⟩
            [⟨1, 1/2, 80, 0, 0⟩, ⟨2, 1/2, 40, 0, 0⟩, ⟨3, 1/2, 99, 0, 0⟩] 0 =
          (.ok, { (⟨[], 4, 0⟩ : cls_planner) with
                  plans := (⟨[], 4, 0⟩ : cls_planner).plans ++ [plan]
                  plans_generated := (⟨[], 4, 0⟩ : cls_planner).plans_generated + 1 })
        ∧ plan.tasks.map cls_task.priority
            = (surviving [⟨1, 1/2, 80, 0, 0⟩, ⟨2, 1/2, 40, 0, 0⟩, ⟨3, 1/2, 99, 0, 0⟩]).map
                (fun d => CLS_CLAMP (d.priority / 25) 0 3)) :=
  ⟨by decide, by decide,
   generate_priority_truncates ⟨[], 4, 0⟩
     [⟨1, 1/2, 80, 0, 0⟩, ⟨2, 1/2, 40, 0, 0⟩, ⟨3, 1/2, 99, 0, 0⟩] 0
     (by decide) (by decide)⟩

/-! ### Next-task selection: specification and refinement -/

/-- The numerically largest priority among a list of tasks (0 when empty). -/
def max_candidate_priority : List cls_task → Nat
  | [] => 0
  | t :: ts => max t.priority (max_candidate_priority ts)

/-- Modelled from the spec's words for C2: among the candidates (Pending
tasks whose whole dependency set names Complete tasks of the plan), return
the first task in array order carrying the numerically highest priority;
`none` when no candidate exists. -/
def next_task_spec (plan : cls_plan) : Option cls_task :=
  let cs := plan.tasks.filter (is_candidate plan.tasks)
  cs.find? fun t => t.priority == max_candidate_priority cs

theorem foldl_guard_filter (p : cls_task → Bool) (l : List cls_task) :
    ∀ b : Option cls_task,
      l.foldl (fun best t => if p t then best_step best t else best) b
        = (l.filter p).foldl best_step b := by
  induction l with
  | nil => intro b; rfl
  | cons t l ih =>
    intro b
    by_cases hp : p t
    · rw [List.foldl_cons, if_pos hp, List.filter_cons_of_pos hp, List.foldl_cons, ih]
    · rw [List.foldl_cons, if_neg hp, List.filter_cons_of_neg hp, ih]

theorem best_step_foldl_find (cs : List cls_task) :
    ∀ b : cls_task,
      cs.foldl best_step (some b)
        = (b :: cs).find? fun t => t.priority == max_candidate_priority (b :: cs) := by
  induction cs with
  | nil =>
    intro b
    have hM : max_candidate_priority [b] = b.priority := by
      simp [max_candidate_priority]
    simp [List.find?, hM]
  | cons c cs ih =>
    intro b
    by_cases hc : c.priority > b.priority
    · have hcle : c.priority ≤ max_candidate_priority (c :: cs) := by
        show c.priority ≤ max c.priority (max_candidate_priority cs)
        exact le_max_left _ _
      have hblt : b.priority < max_candidate_priority (c :: cs) :=
        lt_of_lt_of_le hc hcle
      have hM : max_candidate_priority (b :: c :: cs) = max_candidate_priority (c :: cs) := by
        show max b.priority (max_candidate_priority (c :: cs)) = _
        exact max_eq_right hblt.le
      rw [List.foldl_cons]
      show List.foldl best_step (best_step (some b) c) cs = _
      have hpeel :
          List.find? (fun t => t.priority == max_candidate_priority (c :: cs)) (b :: c :: cs)
            = List.find? (fun t => t.priority == max_candidate_priority (c :: cs)) (c :: cs) :=
        List.find?_cons_of_neg _ (by
          simp only [beq_iff_eq]
          exact ne_of_lt hblt)
      rw [show best_step (some b) c = some c by simp [best_step, if_pos hc], ih c, hM, hpeel]
    · have hcb : c.priority ≤ b.priority := not_lt.mp hc
      have hM : max_candidate_priority (b :: c :: cs) = max_candidate_priority (b :: cs) := by
        show max b.priority (max c.priority (max_candidate_priority cs)) =
          max b.priority (max_candidate_priority cs)
        rw [← max_assoc, max_eq_left hcb]
      rw [List.foldl_cons]
      show List.foldl best_step (best_step (some b) c) cs = _
      rw [show best_step (some b) c = some b by simp [best_step, if_neg hc], ih b, hM]
      by_cases hb : b.priority = max_candidate_priority (b :: cs)
      · have hl :
            List.find? (fun t => t.priority == max_candidate_priority (b :: cs)) (b :: cs)
              = some b :=
          List.find?_cons_of_pos _ (beq_iff_eq.mpr hb)
        have hr :
            List.find? (fun t => t.priority == max_candidate_priority (b :: cs)) (b :: c :: cs)
              = some b :=
          List.find?_cons_of_pos _ (beq_iff_eq.mpr hb)
        rw [hl, hr]
      · have hbleM : b.priority ≤ max_candidate_priority (b :: cs) := by
          show b.priority ≤ max b.priority (max_candidate_priority cs)
          exact le_max_left _ _
        have hcne : c.priority ≠ max_candidate_priority (b :: cs) := by
          intro h
          exact hb (le_antisymm hbleM (h ▸ hcb))
        have hl :
            List.find? (fun t => t.priority == max_candidate_priority (b :: cs)) (b :: cs)
              = List.find? (fun t => t.priority == max_candidate_priority (b :: cs)) cs :=
          List.find?_cons_of_neg _ (by
            simp only [beq_iff_eq]
            exact hb)
        have hr1 :
            List.find? (fun t => t.priority == max_candidate_priority (b :: cs)) (b :: c :: cs)
              = List.find? (fun t => t.priority == max_candidate_priority (b :: cs)) (c :: cs) :=
          List.find?_cons_of_neg _ (by
            simp only [beq_iff_eq]
            exact hb)
        have hr2 :
            List.find? (fun t => t.priority == max_candidate_priority (b :: cs)) (c :: cs)
              = List.find? (fun t => t.priority == max_candidate_priority (b :: cs)) cs :=
          List.find?_cons_of_neg _ (by
            simp only [beq_iff_eq]
            exact hcne)
        rw [hl, hr1, hr2]

/-- C2. `cls_plan_next_task` returns a task only if it is Pending with every
dependency id naming a Complete task of the plan (an id naming no task makes
it ineligible, not an error); among all candidates it returns the one with
the numerically highest priority, ties broken by the first candidate in
task-array order; it returns NotFound exactly when no candidate exists. -/
theorem next_task_refines_spec (plan : cls_plan) :
    cls_plan_next_task plan =
      match next_task_spec plan with
      | none => (cls_status.err_not_found, none)
      | some t => (cls_status.ok, some t) := by
  unfold cls_plan_next_task next_task_spec
  rw [foldl_guard_filter]
  cases hcs : plan.tasks.filter (is_candidate plan.tasks) with
  | nil => rfl
  | cons c rest =>
    rw [List.foldl_cons]
    show (match List.foldl best_step (best_step none c) rest with
          | none => (cls_status.err_not_found, none)
          | some t => (cls_status.ok, some t)) = _
    rw [show best_step none c = some c from rfl, best_step_foldl_find rest c]

/-! ### Task completion -/

theorem set_first_task_none (task_id : Nat) (success : Bool) (now : Nat) :
    ∀ tasks : List cls_task, (∀ t ∈ tasks, t.task_id ≠ task_id) →
      set_first_task tasks task_id success now = none := by
  intro tasks
  induction tasks with
  | nil => intro _; rfl
  | cons t rest ih =>
    intro h
    unfold set_first_task
    rw [if_neg (h t (List.mem_cons_self t rest)), ih fun u hu => h u (List.mem_cons_of_mem t hu)]
    rfl

theorem set_first_task_eq_set (task_id : Nat) (success : Bool) (now : Nat) :
    ∀ (tasks : List cls_task) (i : Nat) (hi : i < tasks.length),
      (tasks.get ⟨i, hi⟩).task_id = task_id →
      (∀ t ∈ tasks.take i, t.task_id ≠ task_id) →
      set_first_task tasks task_id success now =
        some (tasks.set i (completed_update (tasks.get ⟨i, hi⟩) success now)) := by
  intro tasks
  induction tasks with
  | nil => intro i hi; exact absurd hi (by simp)
  | cons t rest ih =>
    intro i hi hmatch hbefore
    cases i with
    | zero =>
      have hm : t.task_id = task_id := hmatch
      unfold set_first_task
      rw [if_pos hm]
      rfl
    | succ j =>
      have htne : t.task_id ≠ task_id := by
        apply hbefore
        simp [List.take_succ_cons]
      unfold set_first_task
      rw [if_neg htne,
        ih j (Nat.lt_of_succ_lt_succ hi) hmatch
          (fun u hu => hbefore u (by simp [List.take_succ_cons, hu]))]
      rfl

theorem set_first_task_inv (task_id : Nat) (success : Bool) (now : Nat) :
    ∀ (tasks : List cls_task) (l : List cls_task),
      set_first_task tasks task_id success now = some l →
      ∃ (i : Nat) (hi : i < tasks.length),
        (tasks.get ⟨i, hi⟩).task_id = task_id
        ∧ (∀ t ∈ tasks.take i, t.task_id ≠ task_id)
        ∧ l = tasks.set i (completed_update (tasks.get ⟨i, hi⟩) success now) := by
  intro tasks
  induction tasks with
  | nil => intro l h; exact absurd h (by simp [set_first_task])
  | cons t rest ih =>
    intro l h
    unfold set_first_task at h
    by_cases ht : t.task_id = task_id
    · rw [if_pos ht] at h
      refine ⟨0, by simp, ht, by simp, ?_⟩
      simpa using h.symm
    · rw [if_neg ht] at h
      cases hrest : set_first_task rest task_id success now with
      | none => rw [hrest] at h; exact absurd h (by simp)
      | some l2 =>
        rw [hrest] at h
        obtain ⟨i, hi, hm, hb, hl2⟩ := ih l2 hrest
        refine ⟨i + 1, Nat.succ_lt_succ hi, hm, ?_, ?_⟩
        · intro u hu
          rcases (List.mem_cons).mp (by simpa [List.take_succ_cons] using hu) with h1 | h2
          · rw [h1]; exact ht
          · exact hb u h2
        · have hcons : l = t :: l2 := by simpa using h.symm
          rw [hcons, hl2]
          rfl

theorem set_self_getElem {α : Type} (l : List α) (n : Nat) (h : n < l.length) :
    l.set n l[n] = l := by
  apply List.ext_getElem
  · simp
  · intro i h1 h2
    by_cases hin : i = n
    · subst hin
      simp [List.getElem_set_self]
    · rw [List.getElem_set_ne (by omega)]

theorem take_set_of_le {α : Type} (a : α) :
    ∀ (l : List α) (i n : Nat), i ≤ n → (l.set n a).take i = l.take i := by
  intro l
  induction l with
  | nil => intro i n _; rfl
  | cons x xs ih =>
    intro i n hin
    cases n with
    | zero =>
      have : i = 0 := Nat.le_zero.mp hin
      rw [this]
      rfl
    | succ m =>
      cases i with
      | zero => rfl
      | succ j =>
        show x :: (xs.set m a).take j = x :: xs.take j
        rw [ih j m (Nat.le_of_succ_le_succ hin)]

theorem all_comp_status (g : cls_plan_status → Bool) :
    ∀ l : List cls_task, l.all (fun t => g t.status) = (l.map cls_task.status).all g := by
  intro l
  induction l with
  | nil => rfl
  | cons t rest ih => simp [List.all_cons, List.map_cons, ih]

theorem any_comp_status (g : cls_plan_status → Bool) :
    ∀ l : List cls_task, l.any (fun t => g t.status) = (l.map cls_task.status).any g := by
  intro l
  induction l with
  | nil => rfl
  | cons t rest ih => simp [List.any_cons, List.map_cons, ih]

theorem all_task_done_congr {l1 l2 : List cls_task}
    (h : l1.map cls_task.status = l2.map cls_task.status) :
    l1.all task_done = l2.all task_done := by
  have e1 : l1.all task_done
      = (l1.map cls_task.status).all
          (fun s => !(s == cls_plan_status.pending) && !(s == cls_plan_status.active)) :=
    all_comp_status
      (fun s => !(s == cls_plan_status.pending) && !(s == cls_plan_status.active)) l1
  have e2 : l2.all task_done
      = (l2.map cls_task.status).all
          (fun s => !(s == cls_plan_status.pending) && !(s == cls_plan_status.active)) :=
    all_comp_status
      (fun s => !(s == cls_plan_status.pending) && !(s == cls_plan_status.active)) l2
  rw [e1, e2, h]

theorem any_task_failed_congr {l1 l2 : List cls_task}
    (h : l1.map cls_task.status = l2.map cls_task.status) :
    l1.any (fun t => t.status == .failed) = l2.any (fun t => t.status == .failed) := by
  have e1 : l1.any (fun t => t.status == cls_plan_status.failed)
      = (l1.map cls_task.status).any (fun s => s == cls_plan_status.failed) :=
    any_comp_status (fun s => s == cls_plan_status.failed) l1
  have e2 : l2.any (fun t => t.status == cls_plan_status.failed)
      = (l2.map cls_task.status).any (fun s => s == cls_plan_status.failed) :=
    any_comp_status (fun s => s == cls_plan_status.failed) l2
  rw [e1, e2, h]

/-- C3. `complete_task` returns NotFound when no task of the plan carries
the id; otherwise it returns OK, marks the first matching task
Complete/Failed according to `success` and stamps its `completed_at`; the
plan status becomes Failed when every task is done and one failed, Complete
when every task is done and none failed, and is otherwise left as it was
(Active for a live plan). A repeated call for the same (already terminal)
task id is accepted again: it returns OK, re-stamps `completed_at`, and
leaves every task status and the aggregated plan status unchanged. -/
theorem complete_task_spec (plan : cls_plan) (task_id : Nat) (success : Bool)
    (now now2 : Nat) :
    ((∀ t ∈ plan.tasks, t.task_id ≠ task_id) →
      cls_plan_complete_task plan task_id success now = (.err_not_found, plan))
    ∧ (∀ (i : Nat) (hi : i < plan.tasks.length),
        (plan.tasks.get ⟨i, hi⟩).task_id = task_id →
        (∀ t ∈ plan.tasks.take i, t.task_id ≠ task_id) →
        cls_plan_complete_task plan task_id success now =
          (.ok,
           { plan with
             tasks := plan.tasks.set i
               (completed_update (plan.tasks.get ⟨i, hi⟩) success now)
             status := plan_agg_status
               (plan.tasks.set i
                 (completed_update (plan.tasks.get ⟨i, hi⟩) success now))
               plan.status }))
    ∧ ((cls_plan_complete_task plan task_id success now).1 = .ok →
        (cls_plan_complete_task
            ((cls_plan_complete_task plan task_id success now).2) task_id success now2).1
            = .ok
        ∧ (cls_plan_complete_task
            ((cls_plan_complete_task plan task_id success now).2) task_id success now2).2.status
            = ((cls_plan_complete_task plan task_id success now).2).status
        ∧ (cls_plan_complete_task
            ((cls_plan_complete_task plan task_id success now).2) task_id success now2).2.tasks.map
              cls_task.status
            = ((cls_plan_complete_task plan task_id success now).2).tasks.map
              cls_task.status) := by
  refine ⟨?_, ?_, ?_⟩
  · intro habsent
    unfold cls_plan_complete_task
    rw [set_first_task_none task_id success now plan.tasks habsent]
  · intro i hi hmatch hbefore
    unfold cls_plan_complete_task
    rw [set_first_task_eq_set task_id success now plan.tasks i hi hmatch hbefore]
  · intro hok
    cases hset : set_first_task plan.tasks task_id success now with
    | none =>
      exfalso
      unfold cls_plan_complete_task at hok
      rw [hset] at hok
      exact absurd hok (by simp)
    | some l =>
      obtain ⟨i, hi, hmatch, hbefore, hl⟩ :=
        set_first_task_inv task_id success now plan.tasks l hset
      subst hl
      have hfirst :
          cls_plan_complete_task plan task_id success now =
            (.ok,
             { plan with
               tasks := plan.tasks.set i
                 (completed_update (plan.tasks.get ⟨i, hi⟩) success now)
               status := plan_agg_status
                 (plan.tasks.set i
                   (completed_update (plan.tasks.get ⟨i, hi⟩) success now))
                 plan.status }) := by
        unfold cls_plan_complete_task
        rw [hset]
      have hil : i < (plan.tasks.set i
          (completed_update (plan.tasks.get ⟨i, hi⟩) success now)).length := by
        rw [List.length_set]
        exact hi
      have hget1 :
          (plan.tasks.set i
              (completed_update (plan.tasks.get ⟨i, hi⟩) success now)).get ⟨i, hil⟩
            = completed_update (plan.tasks.get ⟨i, hi⟩) success now := by
        rw [List.get_eq_getElem]
        exact List.getElem_set_self (by rw [List.length_set]; exact hi)
      have hm2 :
          ((plan.tasks.set i
              (completed_update (plan.tasks.get ⟨i, hi⟩) success now)).get ⟨i, hil⟩).task_id
            = task_id := by
        rw [hget1]
        exact hmatch
      have hb2 : ∀ t ∈ (plan.tasks.set i
          (completed_update (plan.tasks.get ⟨i, hi⟩) success now)).take i,
          t.task_id ≠ task_id := by
        rw [take_set_of_le _ plan.tasks i i (le_refl i)]
        exact hbefore
      have hset2 :
          set_first_task (plan.tasks.set i
              (completed_update (plan.tasks.get ⟨i, hi⟩) success now))
            task_id success now2
            = some ((plan.tasks.set i
                (completed_update (plan.tasks.get ⟨i, hi⟩) success now)).set i
                (completed_update
                  (completed_update (plan.tasks.get ⟨i, hi⟩) success now) success now2)) := by
        have h := set_first_task_eq_set task_id success now2
          (plan.tasks.set i (completed_update (plan.tasks.get ⟨i, hi⟩) success now))
          i hil hm2 hb2
        rw [h, hget1]
      have hsecond :
          cls_plan_complete_task
              ((cls_plan_complete_task plan task_id success now).2) task_id success now2
            = (.ok,
               { plan with
                 tasks := plan.tasks.set i
                   (completed_update
                     (completed_update (plan.tasks.get ⟨i, hi⟩) success now) success now2)
                 status := plan_agg_status
                   (plan.tasks.set i
                     (completed_update
                       (completed_update (plan.tasks.get ⟨i, hi⟩) success now) success now2))
                   (plan_agg_status
                     (plan.tasks.set i
                       (completed_update (plan.tasks.get ⟨i, hi⟩) success now))
                     plan.status) }) := by
        rw [hfirst]
        unfold cls_plan_complete_task
        rw [hset2, List.set_set]
      have hstatuses :
          (plan.tasks.set i
              (completed_update
                (completed_update (plan.tasks.get ⟨i, hi⟩) success now) success now2)).map
              cls_task.status
            = (plan.tasks.set i
                (completed_update (plan.tasks.get ⟨i, hi⟩) success now)).map
              cls_task.status := by
        rw [List.map_set, List.map_set]
        rfl
      have hagg :
          plan_agg_status
              (plan.tasks.set i
                (completed_update
                  (completed_update (plan.tasks.get ⟨i, hi⟩) success now) success now2))
              (plan_agg_status
                (plan.tasks.set i
                  (completed_update (plan.tasks.get ⟨i, hi⟩) success now))
                plan.status)
            = plan_agg_status
                (plan.tasks.set i
                  (completed_update (plan.tasks.get ⟨i, hi⟩) success now))
                plan.status := by
        unfold plan_agg_status
        have hall := all_task_done_congr hstatuses
        have hany := any_task_failed_congr hstatuses
        rw [hall, hany]
        by_cases hdone : ((plan.tasks.set i
            (completed_update (plan.tasks.get ⟨i, hi⟩) success now)).all task_done) = true
        · rw [if_pos hdone, if_pos hdone]
        · rw [if_neg hdone, if_neg hdone]
      refine ⟨?_, ?_, ?_⟩
      · rw [hsecond]
      · rw [hsecond, hfirst, hagg]
      · rw [hsecond, hfirst]
        exact hstatuses

/-- A concrete two-task Active plan used to witness the `complete_task`
specification. -/
def planC3 : cls_plan :=
  { plan_id := 1
    status := .active
    tasks :=
      [{ task_id := 1, action_id := 10, priority := 0, status := .pending
         cost_estimate := 0, reward_estimate := 1, depends_on := []
         params := 0, params_len := 0, deadline_us := 0, started_at := 0
         completed_at := 0 },
       { task_id := 2, action_id := 20, priority := 0, status := .pending
         cost_estimate := 0, reward_estimate := 1, depends_on := []
         params := 0, params_len := 0, deadline_us := 0, started_at := 0
         completed_at := 0 }]
    max_tasks := 4
    total_cost := 0
    total_reward := 2
    success_probability := 1
    created_at := 0 }

/-- Witness for C3: completing task 1 of `planC3` succeeds, keeps the plan
Active (task 2 still Pending), and a second completion of the same task is
accepted without disturbing the statuses. -/
theorem complete_task_spec_witness :
    (cls_plan_complete_task planC3 1 true 5 =
      (.ok,
       { planC3 with
         tasks := planC3.tasks.set 0
           (completed_update (planC3.tasks.get ⟨0, by decide⟩) true 5)
         status := plan_agg_status
           (planC3.tasks.set 0
             (completed_update (planC3.tasks.get ⟨0, by decide⟩) true 5))
           planC3.status }))
    ∧ ((cls_plan_complete_task
          ((cls_plan_complete_task planC3 1 true 5).2) 1 true 9).1 = .ok
      ∧ (cls_plan_complete_task
          ((cls_plan_complete_task planC3 1 true 5).2) 1 true 9).2.status
          = ((cls_plan_complete_task planC3 1 true 5).2).status
      ∧ (cls_plan_complete_task
          ((cls_plan_complete_task planC3 1 true 5).2) 1 true 9).2.tasks.map
            cls_task.status
          = ((cls_plan_complete_task planC3 1 true 5).2).tasks.map
            cls_task.status) :=
  ⟨(complete_task_spec planC3 1 true 5 9).2.1 0 (by decide) (by decide)
     (by intro t ht; simp [List.take_zero] at ht),
   (complete_task_spec planC3 1 true 5 9).2.2 (by decide)⟩

/-! ### Replanning -/

theorem replan_collect_eq :
    ∀ (tasks : List cls_task) (r : Nat), r ≤ 64 →
      replan_collect tasks r
        = ((tasks.filter replan_qualifies).take (64 - r)).map fallback_decision := by
  intro tasks
  induction tasks with
  | nil => intro r _; simp [replan_collect]
  | cons t rest ih =>
    intro r hr
    unfold replan_collect
    by_cases h64 : r ≥ 64
    · have hr64 : r = 64 := le_antisymm hr h64
      subst hr64
      rw [if_pos (le_refl 64)]
      simp
    · rw [if_neg h64]
      by_cases hq : replan_qualifies t = true
      · rw [if_pos hq, List.filter_cons_of_pos hq, ih (r + 1) (by omega)]
        have hsub : 64 - r = (64 - (r + 1)) + 1 := by omega
        rw [hsub, List.take_succ_cons, List.map_cons]
      · rw [if_neg hq, List.filter_cons_of_neg hq, ih r hr]

/-- C6 as amended: `replan` collects the Pending/Failed tasks of the plan in
task order, but only the first 64 of them (the size of the C stack buffer
`fallback_decisions[64]`); each collected task yields one synthesized
decision with `confidence = reward_estimate × 0.8` and the task's original
action_id, priority and params. With no qualifying task it returns NotFound
and changes nothing; otherwise it marks the old plan Cancelled and feeds
the synthesized batch to the plan generator. -/
theorem replan_spec (planner : cls_planner) (fp : cls_plan) (now : Nat) :
    ((fp.tasks.filter replan_qualifies).take 64 = [] →
      cls_planner_replan planner fp now = (.err_not_found, planner, fp))
    ∧ ((fp.tasks.filter replan_qualifies).take 64 ≠ [] →
      cls_planner_replan planner fp now =
        ((cls_planner_generate planner
            (((fp.tasks.filter replan_qualifies).take 64).map fallback_decision) now).1,
         (cls_planner_generate planner
            (((fp.tasks.filter replan_qualifies).take 64).map fallback_decision) now).2,
         { fp with status := .cancelled })) := by
  have hcol : replan_collect fp.tasks 0
      = ((fp.tasks.filter replan_qualifies).take 64).map fallback_decision := by
    rw [replan_collect_eq fp.tasks 0 (by omega)]
  constructor
  · intro hempty
    unfold cls_planner_replan
    rw [hcol, hempty]
    rfl
  · intro hne
    unfold cls_planner_replan
    rw [hcol]
    rw [if_neg (by
      simp only [List.length_map, List.length_eq_zero]
      exact hne)]

/-- The Pending task used to build the 65-task counterexample plan. -/
def pending_half_task : cls_task :=
  { task_id := 1, action_id := 5, priority := 0, status := .pending
    cost_estimate := 1/2, reward_estimate := 1/2, depends_on := []
    params := 0, params_len := 0, deadline_us := 0, started_at := 0
    completed_at := 0 }

/-- A Failed plan holding 65 Pending tasks of reward 0.5. -/
def plan65 : cls_plan :=
  { plan_id := 1
    status := .failed
    tasks := List.replicate 65 pending_half_task
    max_tasks := 130
    total_cost := 65/2
    total_reward := 65/2
    success_probability := 1/2
    created_at := 0 }

/-- Counterexample to C6: `plan65` has 65 tasks qualifying for replanning
(all Pending), yet the plan produced by `replan` holds only 64 tasks — the
collection stops at the 64-entry stack buffer, so "one task per qualifying
task" fails. -/
theorem replan_cap_counterexample :
    (plan65.tasks.filter replan_qualifies).length = 65
    ∧ (cls_planner_replan ⟨[], 4, 0⟩ plan65 0).1 = .ok
    ∧ ((cls_planner_replan ⟨[], 4, 0⟩ plan65 0).2.1.plans.map
        fun p => p.tasks.length) = [64]
    ∧ ((cls_planner_replan ⟨[], 4, 0⟩ plan65 0).2.1.plans.map
        fun p => p.tasks.length) ≠ [(plan65.tasks.filter replan_qualifies).length] := by
  have hqual : replan_qualifies pending_half_task = true := by decide
  have hfilter : plan65.tasks.filter replan_qualifies
      = List.replicate 65 pending_half_task := by
    show (List.replicate 65 pending_half_task).filter replan_qualifies = _
    rw [List.filter_replicate, if_pos hqual]
  have hbatch : ((plan65.tasks.filter replan_qualifies).take 64).map fallback_decision
      = List.replicate 64 (fallback_decision pending_half_task) := by
    rw [hfilter, List.take_replicate, List.map_replicate]
    rfl
  have hne : (plan65.tasks.filter replan_qualifies).take 64 ≠ [] := by
    rw [hfilter, List.take_replicate]
    simp
  have hrep := (replan_spec ⟨[], 4, 0⟩ plan65 0).2 hne
  have hsurv : surviving (List.replicate 64 (fallback_decision pending_half_task))
      = List.replicate 64 (fallback_decision pending_half_task) := by
    unfold surviving
    rw [List.filter_replicate,
      if_pos (show decide ((1:ℚ)/10 ≤ (fallback_decision pending_half_task).confidence)
          = true by norm_num [fallback_decision, pending_half_task])]
  have hgen := cls_planner_generate_eq ⟨[], 4, 0⟩
    (List.replicate 64 (fallback_decision pending_half_task)) 0 (by simp) (by simp)
  refine ⟨by rw [hfilter]; simp, ?_, ?_, ?_⟩
  · rw [hrep, hbatch]
    show (cls_planner_generate ⟨[], 4, 0⟩
      (List.replicate 64 (fallback_decision pending_half_task)) 0).1 = .ok
    rw [hgen]
  · rw [hrep, hbatch]
    show ((cls_planner_generate ⟨[], 4, 0⟩
        (List.replicate 64 (fallback_decision pending_half_task)) 0).2.plans.map
      fun p => p.tasks.length) = [64]
    rw [hgen]
    simp only [List.nil_append, List.map_cons, List.map_nil, mk_tasks_length, hsurv,
      List.length_replicate]
  · rw [hrep, hbatch, hfilter]
    show ((cls_planner_generate ⟨[], 4, 0⟩
        (List.replicate 64 (fallback_decision pending_half_task)) 0).2.plans.map
      fun p => p.tasks.length) ≠ [(List.replicate 65 pending_half_task).length]
    rw [hgen]
    simp only [List.nil_append, List.map_cons, List.map_nil, mk_tasks_length, hsurv,
      List.length_replicate]
    decide

/-- A Failed plan holding one Failed task of reward 0.5, the scenario named
by C6. -/
def planC6 : cls_plan :=
  { plan_id := 2
    status := .failed
    tasks :=
      [{ task_id := 1, action_id := 7, priority := 2, status := .failed
         cost_estimate := 1/2, reward_estimate := 1/2, depends_on := []
         params := 3, params_len := 1, deadline_us := 0, started_at := 0
         completed_at := 9 }]
    max_tasks := 2
    total_cost := 1/2
    total_reward := 1/2
    success_probability := 1/2
    created_at := 0 }

/-- Witness for the amended C6: replanning `planC6` (one Failed task of
reward 0.5) cancels it, feeds one synthesized decision of confidence 0.4 to
the generator, and the new plan holds one task of reward_estimate = 0.4. -/
theorem replan_spec_witness :
    ((planC6.tasks.filter replan_qualifies).take 64 ≠ [])
    ∧ (cls_planner_replan ⟨[], 4, 0⟩ planC6 0 =
        ((cls_planner_generate ⟨[], 4, 0⟩
            (((planC6.tasks.filter replan_qualifies).take 64).map fallback_decision) 0).1,
         (cls_planner_generate ⟨[], 4, 0⟩
            (((planC6.tasks.filter replan_qualifies).take 64).map fallback_decision) 0).2,
         { planC6 with status := .cancelled }))
    ∧ ((cls_planner_replan ⟨[], 4, 0⟩ planC6 0).2.1.plans.map
        fun p => p.tasks.map cls_task.reward_estimate) = [[2/5]] := by
  refine ⟨by decide, (replan_spec ⟨[], 4, 0⟩ planC6 0).2 (by decide), ?_⟩
  norm_num [cls_planner_replan, replan_collect, replan_qualifies, fallback_decision,
    cls_planner_generate, gen_step, planC6]

/-- C9. `replan` is not atomic on error: with a full plan table and at
least one Pending/Failed task in the plan, `replan` returns the generator's
Overflow yet has already marked the old plan Cancelled — the old plan's
state changes although no new plan is produced and the planner is
untouched. -/
theorem replan_not_atomic_on_overflow (planner : cls_planner) (fp : cls_plan)
    (now : Nat) (hfull : planner.max_plans ≤ planner.plans.length)
    (hq : fp.tasks.filter replan_qualifies ≠ []) :
    cls_planner_replan planner fp now =
      (.err_overflow, planner, { fp with status := .cancelled }) := by
  have htake : (fp.tasks.filter replan_qualifies).take 64 ≠ [] := by
    rw [Ne, List.take_eq_nil_iff]
    push_neg
    exact ⟨by decide, hq⟩
  rw [(replan_spec planner fp now).2 htake]
  have hlen : ¬ (((fp.tasks.filter replan_qualifies).take 64).map fallback_decision).length
      = 0 := by
    rw [List.length_map, List.length_eq_zero]
    exact htake
  unfold cls_planner_generate
  rw [if_neg hlen, if_pos hfull]

/-- A planner whose single-slot plan table is already full. -/
def full_planner : cls_planner :=
  { plans := [{ plan_id := 1, status := .active, tasks := [], max_tasks := 2
                total_cost := 0, total_reward := 0, success_probability := 0
                created_at := 0 }]
    max_plans := 1
    plans_generated := 1 }

/-- Witness for C9: replanning `planC6` against the full planner yields
Overflow with the old plan already Cancelled. -/
theorem replan_not_atomic_on_overflow_witness :
    (full_planner.max_plans ≤ full_planner.plans.length)
    ∧ (planC6.tasks.filter replan_qualifies ≠ [])
    ∧ cls_planner_replan full_planner planC6 3 =
        (.err_overflow, full_planner, { planC6 with status := .cancelled }) :=
  ⟨by decide, by decide,
   replan_not_atomic_on_overflow full_planner planC6 3 (by decide) (by decide)⟩

/-! ### Action execution -/

theorem record_action_components (exec : cls_action_exec) (rec0 : cls_action_record) :
    (record_action exec rec0).total_executed = exec.total_executed
    ∧ (record_action exec rec0).total_success = exec.total_success
    ∧ (record_action exec rec0).total_failed = exec.total_failed
    ∧ (record_action exec rec0).total_rollbacks = exec.total_rollbacks
    ∧ (record_action exec rec0).handlers = exec.handlers
    ∧ (record_action exec rec0).max_history = exec.max_history
    ∧ (record_action exec rec0).next_exec_id = exec.next_exec_id
    ∧ (record_action exec rec0).history
        = exec.history.set (exec.history_count % exec.max_history) rec0 := by
  unfold record_action
  dsimp only
  by_cases hc : exec.history_count < exec.max_history
  · rw [if_pos hc]
    exact ⟨rfl, rfl, rfl, rfl, rfl, rfl, rfl, rfl⟩
  · rw [if_neg hc]
    exact ⟨rfl, rfl, rfl, rfl, rfl, rfl, rfl, rfl⟩

/-- The always-succeeding handler of the C4 scenario (action_id 1). -/
def h_ok : cls_action_handler :=
  { action_id := 1, execute_fn := fun _ _ _ => .ok, rollback_fn := none
    timeout_ms := 0, min_priority := 0 }

/-- The always-failing handler of the C4 scenario (action_id 2). -/
def h_fail : cls_action_handler :=
  { action_id := 2, execute_fn := fun _ _ _ => .err_internal, rollback_fn := none
    timeout_ms := 0, min_priority := 0 }

/-- A freshly initialised executor (max_handlers 4, history capacity 8). -/
def exec_base : cls_action_exec :=
  { handlers := [], max_handlers := 4
    history := List.replicate 8 zero_record, history_count := 0, max_history := 8
    next_exec_id := 1, total_executed := 0, total_success := 0, total_failed := 0
    total_rollbacks := 0 }

/-- `exec_base` with `h_ok` and `h_fail` registered. -/
def exec_two : cls_action_exec :=
  (cls_action_register (cls_action_register exec_base h_ok).2 h_fail).2

/-- C4. `execute` returns NotFound with nothing changed when no handler is
registered for the action id; otherwise it invokes the handler once, returns
the handler's own result, increments total_executed and exactly one of
total_success / total_failed, and stores an ExecutionRecord (status Success
iff the handler returned OK, Failed otherwise, with the handler's result
code) at the history write slot. Registering one always-succeeding and one
always-failing handler and executing each once yields stats executed=2,
success=1, failed=1. -/
theorem execute_spec (exec : cls_action_exec) (aid p plen ts te : Nat)
    (hlen : exec.history.length = exec.max_history)
    (hcap : 0 < exec.max_history) :
    (match find_handler exec.handlers aid with
     | none => cls_action_execute exec aid p plen ts te = (.err_not_found, exec, none)
     | some h =>
       (cls_action_execute exec aid p plen ts te).1 = h.execute_fn aid p plen
       ∧ (cls_action_execute exec aid p plen ts te).2.1.total_executed
           = exec.total_executed + 1
       ∧ (cls_action_execute exec aid p plen ts te).2.1.total_success
           = exec.total_success + (if h.execute_fn aid p plen = .ok then 1 else 0)
       ∧ (cls_action_execute exec aid p plen ts te).2.1.total_failed
           = exec.total_failed + (if h.execute_fn aid p plen = .ok then 0 else 1)
       ∧ (cls_action_execute exec aid p plen ts te).2.2 =
           some { exec_id := exec.next_exec_id
                  action_id := aid
                  status := if h.execute_fn aid p plen = .ok then .success else .failed
                  started_at := ts
                  completed_at := te
                  duration_us := te - ts
                  result_code := h.execute_fn aid p plen
                  rolled_back := false }
       ∧ (cls_action_execute exec aid p plen ts te).2.1.history.get?
             (exec.history_count % exec.max_history) =
           some { exec_id := exec.next_exec_id
                  action_id := aid
                  status := if h.execute_fn aid p plen = .ok then .success else .failed
                  started_at := ts
                  completed_at := te
                  duration_us := te - ts
                  result_code := h.execute_fn aid p plen
                  rolled_back := false })
    ∧ ((cls_action_execute exec_two 1 0 0 10 11).1 = .ok
       ∧ (cls_action_execute
            (cls_action_execute exec_two 1 0 0 10 11).2.1 2 0 0 12 13).1 = .err_internal
       ∧ ((cls_action_execute exec_two 1 0 0 10 11).2.2.map cls_action_record.status)
           = some .success
       ∧ ((cls_action_execute
            (cls_action_execute exec_two 1 0 0 10 11).2.1 2 0 0 12 13).2.2.map
            cls_action_record.status) = some .failed
       ∧ (cls_action_execute
            (cls_action_execute exec_two 1 0 0 10 11).2.1 2 0 0 12 13).2.1.total_executed = 2
       ∧ (cls_action_execute
            (cls_action_execute exec_two 1 0 0 10 11).2.1 2 0 0 12 13).2.1.total_success = 1
       ∧ (cls_action_execute
            (cls_action_execute exec_two 1 0 0 10 11).2.1 2 0 0 12 13).2.1.total_failed = 1) := by
  constructor
  · cases hfind : find_handler exec.handlers aid with
    | none =>
      show cls_action_execute exec aid p plen ts te = (.err_not_found, exec, none)
      unfold cls_action_execute
      rw [hfind]
    | some h =>
      have hunfold : cls_action_execute exec aid p plen ts te =
          (h.execute_fn aid p plen,
           record_action
             { exec with
               next_exec_id := exec.next_exec_id + 1
               total_success := if h.execute_fn aid p plen = .ok then exec.total_success + 1
                                else exec.total_success
               total_failed := if h.execute_fn aid p plen = .ok then exec.total_failed
                               else exec.total_failed + 1
               total_executed := exec.total_executed + 1 }
             { exec_id := exec.next_exec_id
               action_id := aid
               status := if h.execute_fn aid p plen = .ok then .success else .failed
               started_at := ts
               completed_at := te
               duration_us := te - ts
               result_code := h.execute_fn aid p plen
               rolled_back := false },
           some { exec_id := exec.next_exec_id
                  action_id := aid
                  status := if h.execute_fn aid p plen = .ok then .success else .failed
                  started_at := ts
                  completed_at := te
                  duration_us := te - ts
                  result_code := h.execute_fn aid p plen
                  rolled_back := false }) := by
        unfold cls_action_execute
        rw [hfind]
      obtain ⟨hexe, hsuc, hfai, hrol, hhan, hmax, hnex, hhist⟩ :=
        record_action_components
          { exec with
            next_exec_id := exec.next_exec_id + 1
            total_success := if h.execute_fn aid p plen = .ok then exec.total_success + 1
                             else exec.total_success
            total_failed := if h.execute_fn aid p plen = .ok then exec.total_failed
                            else exec.total_failed + 1
            total_executed := exec.total_executed + 1 }
          { exec_id := exec.next_exec_id
            action_id := aid
            status := if h.execute_fn aid p plen = .ok then .success else .failed
            started_at := ts
            completed_at := te
            duration_us := te - ts
            result_code := h.execute_fn aid p plen
            rolled_back := false }
      refine ⟨by rw [hunfold], ?_, ?_, ?_, by rw [hunfold], ?_⟩
      · rw [hunfold]
        exact hexe
      · rw [hunfold, hsuc]
        by_cases hr : h.execute_fn aid p plen = .ok
        · simp [hr]
        · simp [hr]
      · rw [hunfold, hfai]
        by_cases hr : h.execute_fn aid p plen = .ok
        · simp [hr]
        · simp [hr]
      · rw [hunfold, hhist, List.get?_eq_getElem?]
        exact List.getElem?_set_self (by
          simp only [List.length_set, hlen]
          exact Nat.mod_lt _ hcap)
  · exact ⟨rfl, rfl, rfl, rfl, rfl, rfl, rfl⟩

/-- Witness for C4: applying the execute specification to `exec_two` and
action id 1 (handler registered) at concrete times. -/
theorem execute_spec_witness :
    (exec_two.history.length = exec_two.max_history)
    ∧ (0 < exec_two.max_history)
    ∧ ((match find_handler exec_two.handlers 1 with
        | none => cls_action_execute exec_two 1 0 0 10 11 = (.err_not_found, exec_two, none)
        | some h =>
          (cls_action_execute exec_two 1 0 0 10 11).1 = h.execute_fn 1 0 0
          ∧ (cls_action_execute exec_two 1 0 0 10 11).2.1.total_executed
              = exec_two.total_executed + 1
          ∧ (cls_action_execute exec_two 1 0 0 10 11).2.1.total_success
              = exec_two.total_success + (if h.execute_fn 1 0 0 = .ok then 1 else 0)
          ∧ (cls_action_execute exec_two 1 0 0 10 11).2.1.total_failed
              = exec_two.total_failed + (if h.execute_fn 1 0 0 = .ok then 0 else 1)
          ∧ (cls_action_execute exec_two 1 0 0 10 11).2.2 =
              some { exec_id := exec_two.next_exec_id
                     action_id := 1
                     status := if h.execute_fn 1 0 0 = .ok then .success else .failed
                     started_at := 10
                     completed_at := 11
                     duration_us := 11 - 10
                     result_code := h.execute_fn 1 0 0
                     rolled_back := false }
          ∧ (cls_action_execute exec_two 1 0 0 10 11).2.1.history.get?
                (exec_two.history_count % exec_two.max_history) =
              some { exec_id := exec_two.next_exec_id
                     action_id := 1
                     status := if h.execute_fn 1 0 0 = .ok then .success else .failed
                     started_at := 10
                     completed_at := 11
                     duration_us := 11 - 10
                     result_code := h.execute_fn 1 0 0
                     rolled_back := false })
      ∧ ((cls_action_execute exec_two 1 0 0 10 11).1 = .ok
         ∧ (cls_action_execute
              (cls_action_execute exec_two 1 0 0 10 11).2.1 2 0 0 12 13).1 = .err_internal
         ∧ ((cls_action_execute exec_two 1 0 0 10 11).2.2.map cls_action_record.status)
             = some .success
         ∧ ((cls_action_execute
              (cls_action_execute exec_two 1 0 0 10 11).2.1 2 0 0 12 13).2.2.map
              cls_action_record.status) = some .failed
         ∧ (cls_action_execute
              (cls_action_execute exec_two 1 0 0 10 11).2.1 2 0 0 12 13).2.1.total_executed = 2
         ∧ (cls_action_execute
              (cls_action_execute exec_two 1 0 0 10 11).2.1 2 0 0 12 13).2.1.total_success = 1
         ∧ (cls_action_execute
              (cls_action_execute exec_two 1 0 0 10 11).2.1 2 0 0 12 13).2.1.total_failed = 1)) :=
  ⟨rfl, by decide, execute_spec exec_two 1 0 0 10 11 rfl (by decide)⟩

/-! ### Rollback -/

theorem find_record_set (eid : Nat) :
    ∀ (history : List cls_action_record) (bound i : Nat)
      (r r2 : cls_action_record),
      find_record history bound eid = some (i, r) → r2.exec_id = r.exec_id →
      find_record (history.set i r2) bound eid = some (i, r2) := by
  intro history
  induction history with
  | nil =>
    intro bound i r r2 h h2
    cases bound <;> exact Option.noConfusion h
  | cons hd rest ih =>
    intro bound i r r2 h h2
    cases bound with
    | zero => exact Option.noConfusion h
    | succ b =>
      unfold find_record at h
      by_cases hhd : hd.exec_id = eid
      · rw [if_pos hhd] at h
        simp only [Option.some.injEq, Prod.mk.injEq] at h
        obtain ⟨hi0, hrhd⟩ := h
        subst hi0
        show find_record (r2 :: rest) (b + 1) eid = some (0, r2)
        unfold find_record
        rw [if_pos (by rw [h2, ← hrhd]; exact hhd)]
      · rw [if_neg hhd] at h
        cases hrest : find_record rest b eid with
        | none => rw [hrest] at h; simp at h
        | some pr =>
          rw [hrest] at h
          obtain ⟨j, rj⟩ := pr
          have hinj : some ((j + 1 : Nat), rj) = some (i, r) := h
          cases hinj
          show find_record (hd :: rest.set j r2) (b + 1) eid = some (j + 1, r2)
          unfold find_record
          rw [if_neg hhd, ih b j _ r2 hrest h2]
          rfl

/-- The shape of `cls_action_rollback` once the history scan has found a
record: the remaining checks of lines 144–158. -/
theorem rollback_eq_of_found (exec : cls_action_exec) (eid i : Nat)
    (r : cls_action_record)
    (hfr : find_record exec.history (min exec.history_count exec.max_history) eid
      = some (i, r)) :
    cls_action_rollback exec eid =
      (if r.rolled_back then ((.err_state, exec) : cls_status × cls_action_exec)
       else
         match find_handler exec.handlers r.action_id with
         | none => (.err_invalid, exec)
         | some h =>
           match h.rollback_fn with
           | none => (.err_invalid, exec)
           | some rb =>
             let result := rb r.action_id 0 0
             if result = .ok then
               (result,
                { exec with
                  history := exec.history.set i
                    { r with rolled_back := true, status := .rolledback }
                  total_rollbacks := exec.total_rollbacks + 1 })
             else (result, exec)) := by
  unfold cls_action_rollback
  rw [hfr]

/-- C5. `rollback` returns NotFound when no history record carries the
exec_id, InvalidState when the record was already rolled back, and Invalid
when the handler registered for the record's action has no rollback
function; after a rollback that returned OK, a second rollback of the same
exec_id returns InvalidState. -/
theorem rollback_spec (exec : cls_action_exec) (eid : Nat) :
    (find_record exec.history (min exec.history_count exec.max_history) eid = none →
      cls_action_rollback exec eid = (.err_not_found, exec))
    ∧ (∀ i r, find_record exec.history (min exec.history_count exec.max_history) eid
          = some (i, r) →
        (r.rolled_back = true → cls_action_rollback exec eid = (.err_state, exec))
        ∧ (r.rolled_back = false →
          ∀ h, find_handler exec.handlers r.action_id = some h →
            h.rollback_fn = none →
            cls_action_rollback exec eid = (.err_invalid, exec)))
    ∧ ((cls_action_rollback exec eid).1 = .ok →
        (cls_action_rollback (cls_action_rollback exec eid).2 eid).1 = .err_state) := by
  refine ⟨?_, ?_, ?_⟩
  · intro hfr
    unfold cls_action_rollback
    rw [hfr]
  · intro i r hfr
    constructor
    · intro hrb
      rw [rollback_eq_of_found exec eid i r hfr, if_pos hrb]
    · intro hrb h hfh hrbf
      rw [rollback_eq_of_found exec eid i r hfr,
        if_neg (by rw [hrb]; exact Bool.false_ne_true), hfh]
      dsimp only
      rw [hrbf]
  · intro hok
    cases hfr : find_record exec.history (min exec.history_count exec.max_history) eid with
    | none =>
      have heq : cls_action_rollback exec eid = (.err_not_found, exec) := by
        unfold cls_action_rollback
        rw [hfr]
      rw [heq] at hok
      exact absurd hok (by simp)
    | some pr =>
      obtain ⟨i, r⟩ := pr
      have hbase := rollback_eq_of_found exec eid i r hfr
      by_cases hrb : r.rolled_back = true
      · rw [hbase, if_pos hrb] at hok
        exact absurd hok (by simp)
      · rw [if_neg (by rw [Bool.not_eq_true] at hrb; rw [hrb]; exact Bool.false_ne_true)]
          at hbase
        cases hfh : find_handler exec.handlers r.action_id with
        | none =>
          rw [hfh] at hbase
          rw [hbase] at hok
          exact absurd hok (by simp)
        | some h =>
          rw [hfh] at hbase
          dsimp only at hbase
          cases hrbf : h.rollback_fn with
          | none =>
            rw [hrbf] at hbase
            rw [hbase] at hok
            exact absurd hok (by simp)
          | some rb =>
            rw [hrbf] at hbase
            dsimp only at hbase
            by_cases hres : rb r.action_id 0 0 = .ok
            · have heq : cls_action_rollback exec eid =
                  (.ok,
                   { exec with
                     history := exec.history.set i
                       { r with rolled_back := true, status := .rolledback }
                     total_rollbacks := exec.total_rollbacks + 1 }) := by
                rw [hbase]
                show (if rb r.action_id 0 0 = cls_status.ok then _ else _) = _
                rw [if_pos hres, hres]
              rw [heq]
              have hfr2 : find_record
                  (exec.history.set i { r with rolled_back := true, status := .rolledback })
                  (min exec.history_count exec.max_history) eid
                  = some (i, { r with rolled_back := true, status := .rolledback }) :=
                find_record_set eid exec.history
                  (min exec.history_count exec.max_history) i r
                  { r with rolled_back := true, status := .rolledback } hfr rfl
              rw [rollback_eq_of_found _ eid i _ hfr2,
                if_pos (show ({ r with rolled_back := true, status := .rolledback }
                  : cls_action_record).rolled_back = true from rfl)]
            · have heq : cls_action_rollback exec eid = (rb r.action_id 0 0, exec) := by
                rw [hbase]
                show (if rb r.action_id 0 0 = cls_status.ok then _ else _) = _
                rw [if_neg hres]
              rw [heq] at hok
              exact absurd hok hres

/-- A handler for action 1 whose rollback function always succeeds. -/
def h_rb : cls_action_handler :=
  { action_id := 1, execute_fn := fun _ _ _ => .ok
    rollback_fn := some (fun _ _ _ => .ok), timeout_ms := 0, min_priority := 0 }

/-- `exec_base` with `h_rb` registered and one successful execution
(exec_id 1) in history. -/
def exec_rb1 : cls_action_exec :=
  (cls_action_execute (cls_action_register exec_base h_rb).2 1 0 0 5 6).2.1

/-- Witness for C5: rolling exec_id 1 back once succeeds, a second rollback
of the same exec_id returns InvalidState, and an unknown exec_id returns
NotFound. -/
theorem rollback_spec_witness :
    ((cls_action_rollback exec_rb1 1).1 = .ok)
    ∧ ((cls_action_rollback (cls_action_rollback exec_rb1 1).2 1).1 = .err_state)
    ∧ (find_record exec_rb1.history
        (min exec_rb1.history_count exec_rb1.max_history) 99 = none)
    ∧ cls_action_rollback exec_rb1 99 = (.err_not_found, exec_rb1) :=
  ⟨rfl, (rollback_spec exec_rb1 1).2.2 rfl, rfl, (rollback_spec exec_rb1 99).1 rfl⟩

/-! ### History retention -/

/-- An executor with history capacity 2 and the always-succeeding handler
registered. -/
def exec_cap2 : cls_action_exec :=
  (cls_action_register
    { handlers := [], max_handlers := 4
      history := List.replicate 2 zero_record, history_count := 0, max_history := 2
      next_exec_id := 1, total_executed := 0, total_success := 0, total_failed := 0
      total_rollbacks := 0 } h_ok).2

/-- `exec_cap2` after three executions of action 1 (exec_ids 1, 2, 3). -/
def exec_hist3 : cls_action_exec :=
  (cls_action_execute
    (cls_action_execute
      (cls_action_execute exec_cap2 1 0 0 1 2).2.1 1 0 0 3 4).2.1 1 0 0 5 6).2.1

/-- `exec_hist3` after a fourth execution (exec_id 4). -/
def exec_hist4 : cls_action_exec :=
  (cls_action_execute exec_hist3 1 0 0 7 8).2.1

/-- C8 (code bug). With capacity 2 the third execution does evict exec 1, as
specified — but the write index `history_count % max_history` stops moving
once `history_count` saturates at `max_history`, so every further record
lands in slot 0: the fourth execution overwrites exec 3 (the newest
retained record) while exec 2, the oldest retained, survives forever. The
history after four executions is [4, 2], not the claimed oldest-evicting
[3, 4]. -/
theorem history_eviction_code_bug :
    (cls_action_get_record exec_hist3 1).1 = .err_not_found
    ∧ (cls_action_get_record exec_hist3 2).1 = .ok
    ∧ (cls_action_get_record exec_hist3 3).1 = .ok
    ∧ (cls_action_get_record exec_hist4 2).1 = .ok
    ∧ (cls_action_get_record exec_hist4 3).1 = .err_not_found
    ∧ (cls_action_get_record exec_hist4 4).1 = .ok
    ∧ exec_hist4.history.map cls_action_record.exec_id = [4, 2] :=
  ⟨rfl, rfl, rfl, rfl, rfl, rfl, rfl⟩

/-! ### Task execution without a handler -/

/-- C10. When no handler is registered for the task's action,
`execute_task` returns NotFound, yet the task has been moved out of
Pending: its status was set Active and then Failed, with `started_at` and
`completed_at` stamped; the executor is unchanged (no record appended, no
counter bumped) and no ExecutionRecord is produced. -/
theorem execute_task_no_handler (exec : cls_action_exec) (task : cls_task)
    (t1 t2 t3 t4 : Nat)
    (hnone : find_handler exec.handlers task.action_id = none) :
    cls_action_execute_task exec task t1 t2 t3 t4 =
      (.err_not_found, exec,
       { task with started_at := t1, completed_at := t4, status := .failed },
       none) := by
  unfold cls_action_execute_task cls_action_execute
  dsimp only
  rw [hnone]
  simp

/-- Witness for C10: executing `pending_half_task` (action 5) against the
handler-less `exec_base`. -/
theorem execute_task_no_handler_witness :
    (find_handler exec_base.handlers pending_half_task.action_id = none)
    ∧ cls_action_execute_task exec_base pending_half_task 20 21 22 23 =
        (.err_not_found, exec_base,
         { pending_half_task with started_at := 20, completed_at := 23, status := .failed },
         none) :=
  ⟨rfl, execute_task_no_handler exec_base pending_half_task 20 21 22 23 rfl⟩

end CLS
